import Mathlib

/-!
Shallow embedding of `src/data/populate_db.py` (a single-file ETL script that
loads three CSV tables into an SQLite database) together with proofs of the
specified properties.

The database state is a record of table contents (lists of rows) plus the
autoincrement counters SQLite keeps for the surrogate-key columns.  Each
Python helper becomes a pure Lean function on this state; the per-row
`try/except` blocks of `populate_database` become loops over `Except`-valued
row processors, where an abstract oracle (`Row → Option String`) stands for
the Python-level exceptions ("any other unexpected error") that can occur
while processing a row.  SQLite's per-connection `foreign_keys` pragma is a
boolean parameter of the insert operations: the setup connection turns it on,
while the connection opened by `populate_database` never executes the pragma
and therefore keeps SQLite's default of off.
-/

namespace PopulateDb

/-- A row of the `Products` table: surrogate key and unique name. -/
structure ProductRow where
  pid : Nat
  name : String
deriving Repr, DecidableEq

/-- A row of the `Locations` table: surrogate key and unique name. -/
structure LocationRow where
  lid : Nat
  name : String
deriving Repr, DecidableEq

/-- A row of the `Drivers` table: surrogate key and unique identifier. -/
structure DriverRow where
  did : Nat
  ident : String
deriving Repr, DecidableEq

/-- A row of the `Shipments` table: the CSV shipment identifier is used as the
primary key directly, plus location/driver foreign keys. -/
structure ShipmentRow where
  sid : Int
  origin : Nat
  dest : Nat
  driver : Nat
deriving Repr, DecidableEq

/-- A row of the `ShipmentLineItems` table. -/
structure LineItemRow where
  liid : Nat
  sid : Int
  prodId : Nat
  qty : Nat
  onTime : String
deriving Repr, DecidableEq

/-- The database state: the five tables created by `setup_database`, plus the
next autoincrement value for each surrogate-key column. -/
structure DB where
  products : List ProductRow
  locations : List LocationRow
  drivers : List DriverRow
  shipments : List ShipmentRow
  lineItems : List LineItemRow
  nextProductId : Nat
  nextLocationId : Nat
  nextDriverId : Nat
  nextLineItemId : Nat
deriving Repr, DecidableEq

/-- The empty database produced by running the DDL of `setup_database` on a
fresh file: all five tables empty, autoincrement counters starting at 1. -/
def emptyDB : DB :=
  { products := [], locations := [], drivers := [], shipments := [],
    lineItems := [], nextProductId := 1, nextLocationId := 1,
    nextDriverId := 1, nextLineItemId := 1 }

/-- `setup_database` runs `CREATE TABLE IF NOT EXISTS` statements: on a fresh
file it creates the empty schema, and when the file already holds the tables
it leaves their contents untouched. -/
def setup_database (existing : Option DB) : DB :=
  match existing with
  | some db => db
  | none => emptyDB

/-- The `PRAGMA foreign_keys = ON` statement is executed on the connection
opened by `setup_database` (and that connection is closed at the end of
`setup_database`). -/
def setupConnForeignKeys : Bool := true

/-- `populate_database` opens its own `sqlite3.connect` connection and never
executes `PRAGMA foreign_keys = ON`, so SQLite's per-connection default of
disabled foreign-key enforcement applies to every insert it performs. -/
def populateConnForeignKeys : Bool := false

/-- `get_or_insert_product`: `SELECT ProductID FROM Products WHERE
ProductName = ?`; if a row is found return its `ProductID`, otherwise
`INSERT INTO Products (ProductName) VALUES (?)` and return
`cursor.lastrowid`. -/
def get_or_insert_product (db : DB) (product_name : String) : Nat × DB :=
  match db.products.find? (fun r => r.name == product_name) with
  | some r => (r.pid, db)
  | none =>
      let pid := db.nextProductId
      (pid, { db with
                products := db.products ++ [{ pid := pid, name := product_name }],
                nextProductId := pid + 1 })

/-- `get_or_insert_location`: lookup by `LocationName`, insert on miss. -/
def get_or_insert_location (db : DB) (location_name : String) : Nat × DB :=
  match db.locations.find? (fun r => r.name == location_name) with
  | some r => (r.lid, db)
  | none =>
      let lid := db.nextLocationId
      (lid, { db with
                locations := db.locations ++ [{ lid := lid, name := location_name }],
                nextLocationId := lid + 1 })

/-- `get_or_insert_driver`: lookup by `DriverIdentifier`, insert on miss. -/
def get_or_insert_driver (db : DB) (driver_identifier : String) : Nat × DB :=
  match db.drivers.find? (fun r => r.ident == driver_identifier) with
  | some r => (r.did, db)
  | none =>
      let did := db.nextDriverId
      (did, { db with
                drivers := db.drivers ++ [{ did := did, ident := driver_identifier }],
                nextDriverId := did + 1 })

/-- A row of `shipping_data_0.csv` (table A). -/
structure Row0 where
  origin_warehouse : String
  destination_store : String
  product : String
  on_time : String
  product_quantity : Int
  driver_identifier : String
deriving Repr, DecidableEq

/-- A row of `shipping_data_1.csv` (table B). -/
structure Row1 where
  shipment_identifier : Int
  product : String
  on_time : String
deriving Repr, DecidableEq

/-- A row of `shipping_data_2.csv` (table C). -/
structure Row2 where
  shipment_identifier : Int
  origin_warehouse : String
  destination_store : String
  driver_identifier : String
deriving Repr, DecidableEq

/-- pandas `Series.unique` on a concatenated column: the distinct values in
order of first appearance. -/
def pdUnique (xs : List String) : List String :=
  xs.foldl (fun acc x => if acc.contains x then acc else acc ++ [x]) []

/-- pandas `DataFrame.drop_duplicates(subset=['shipment_identifier'])`: keep
the first row (in file order) for each shipment identifier.  `seen` carries
the identifiers already kept. -/
def dropDupShipments (seen : List Int) : List Row2 → List Row2
  | [] => []
  | r :: rs =>
      if seen.contains r.shipment_identifier then dropDupShipments seen rs
      else r :: dropDupShipments (r.shipment_identifier :: seen) rs

/-- `df2.drop_duplicates(subset=['shipment_identifier'])` (first occurrence
per identifier wins). -/
def drop_duplicates_by_shipment (rows : List Row2) : List Row2 :=
  dropDupShipments [] rows

/-- The constraint violations SQLite can signal as `sqlite3.IntegrityError`
on the inserts this script performs. -/
inductive SqlError where
  | fkViolation (table : String)
deriving Repr, DecidableEq

/-- Render an `SqlError` the way it appears in the logged message. -/
def describeSqlError : SqlError → String
  | .fkViolation t => "FOREIGN KEY constraint failed: " ++ t

/-- `INSERT OR IGNORE INTO Shipments ...`: when a row with the same primary
key `ShipmentID` already exists the statement is a silent no-op; otherwise
the row is inserted, subject to the foreign-key checks only when the
connection has foreign-key enforcement enabled (`fk`). -/
def insertShipmentOrIgnore (fk : Bool) (db : DB) (sid : Int)
    (originId destId driverId : Nat) : Except SqlError DB :=
  if db.shipments.any (fun s => s.sid == sid) then
    Except.ok db
  else if fk && !(db.locations.any (fun l => l.lid == originId) &&
                  db.locations.any (fun l => l.lid == destId) &&
                  db.drivers.any (fun d => d.did == driverId)) then
    Except.error (SqlError.fkViolation "Shipments")
  else
    Except.ok { db with
                  shipments := db.shipments ++
                    [{ sid := sid, origin := originId, dest := destId,
                       driver := driverId }] }

/-- `INSERT INTO ShipmentLineItems ...`: a plain insert; the autoincrement
`LineItemID` never conflicts, so the only constraint SQLite could enforce is
the pair of foreign keys, checked only when `fk` is enabled. -/
def insertLineItem (fk : Bool) (db : DB) (sid : Int) (productId qty : Nat)
    (onTime : String) : Except SqlError DB :=
  if fk && !(db.shipments.any (fun s => s.sid == sid) &&
             db.products.any (fun p => p.pid == productId)) then
    Except.error (SqlError.fkViolation "ShipmentLineItems")
  else
    Except.ok { db with
                  lineItems := db.lineItems ++
                    [{ liid := db.nextLineItemId, sid := sid,
                       prodId := productId, qty := qty, onTime := onTime }],
                  nextLineItemId := db.nextLineItemId + 1 }

/-- One `print(f"... Error ... shipment {id} from {path}: {e}")` emitted by an
exception handler: the source file, the offending shipment identifier and the
exception text. -/
structure LogEntry where
  source : String
  shipmentId : Int
  message : String
deriving Repr, DecidableEq

/-- The configured path of table B. -/
def s1Path : String := "shipping_data_1.csv"

/-- The configured path of table C. -/
def s2Path : String := "shipping_data_2.csv"

/-- The body of one iteration of the shipments loop: resolve origin,
destination and driver, then `INSERT OR IGNORE` the shipment and commit.
`exn` is the oracle for Python-level exceptions raised while processing the
row ("any other unexpected error"); an `Except.error` outcome means the
handler fires, which rolls the uncommitted changes of this row back. -/
def processShipmentRow (fk : Bool) (exn : Row2 → Option String) (db : DB)
    (r : Row2) : Except String DB :=
  match exn r with
  | some e => Except.error e
  | none =>
      let res0 := get_or_insert_location db r.origin_warehouse
      let res1 := get_or_insert_location res0.2 r.destination_store
      let res2 := get_or_insert_driver res1.2 r.driver_identifier
      match insertShipmentOrIgnore fk res2.2 r.shipment_identifier
              res0.1 res1.1 res2.1 with
      | Except.ok db2 => Except.ok db2
      | Except.error e => Except.error (describeSqlError e)

/-- One iteration of the `for index, row_s2 in unique_shipments_df2.iterrows()`
loop, exception handlers included: a successful row commits its state, a
failing row is logged (with its shipment identifier and the source path) and
rolled back to the previously committed state. -/
def shipmentStep (fk : Bool) (exn : Row2 → Option String)
    (acc : DB × List LogEntry) (r : Row2) : DB × List LogEntry :=
  match processShipmentRow fk exn acc.1 r with
  | Except.ok db2 => (db2, acc.2)
  | Except.error e =>
      (acc.1, acc.2 ++ [{ source := s2Path,
                          shipmentId := r.shipment_identifier, message := e }])

/-- The shipments population loop over the deduplicated table C rows. -/
def shipmentsLoop (fk : Bool) (exn : Row2 → Option String) (db : DB)
    (log : List LogEntry) (rows : List Row2) : DB × List LogEntry :=
  rows.foldl (shipmentStep fk exn) (db, log)

/-- The body of one iteration of the line-items loop: resolve the product,
default the quantity to 1 (table B has no quantity column), insert the line
item and commit.  `exn` is the oracle for Python-level exceptions. -/
def processLineItemRow (fk : Bool) (exn : Row1 → Option String) (db : DB)
    (r : Row1) : Except String DB :=
  match exn r with
  | some e => Except.error e
  | none =>
      let res := get_or_insert_product db r.product
      let quantity := 1
      match insertLineItem fk res.2 r.shipment_identifier res.1 quantity
              r.on_time with
      | Except.ok db2 => Except.ok db2
      | Except.error e => Except.error (describeSqlError e)

/-- One iteration of the `for index, row_s1 in df1.iterrows()` loop,
exception handlers included. -/
def lineItemStep (fk : Bool) (exn : Row1 → Option String)
    (acc : DB × List LogEntry) (r : Row1) : DB × List LogEntry :=
  match processLineItemRow fk exn acc.1 r with
  | Except.ok db2 => (db2, acc.2)
  | Except.error e =>
      (acc.1, acc.2 ++ [{ source := s1Path,
                          shipmentId := r.shipment_identifier, message := e }])

/-- The line-items population loop over all of table B. -/
def lineItemsLoop (fk : Bool) (exn : Row1 → Option String) (db : DB)
    (log : List LogEntry) (rows : List Row1) : DB × List LogEntry :=
  rows.foldl (lineItemStep fk exn) (db, log)

/-- The oracle describing a run in which no Python-level exception occurs
while processing table C rows (well-formed input). -/
def noExn2 : Row2 → Option String := fun _ => none

/-- The oracle describing a run in which no Python-level exception occurs
while processing table B rows (well-formed input). -/
def noExn1 : Row1 → Option String := fun _ => none

/-- `populate_database`: read the three tables, populate the entity tables
from the deduplicated name columns, then populate `Shipments` from the
deduplicated table C rows and `ShipmentLineItems` from every table B row.
Returns the final database state together with the error log. -/
def populate_database (exn2 : Row2 → Option String)
    (exn1 : Row1 → Option String) (db : DB) (df0 : List Row0)
    (df1 : List Row1) (df2 : List Row2) : DB × List LogEntry :=
  let all_products := pdUnique (df0.map (fun r => r.product) ++
                                df1.map (fun r => r.product))
  let db1 := all_products.foldl (fun d n => (get_or_insert_product d n).2) db
  let all_locations := pdUnique (df0.map (fun r => r.origin_warehouse) ++
                                 df0.map (fun r => r.destination_store) ++
                                 df2.map (fun r => r.origin_warehouse) ++
                                 df2.map (fun r => r.destination_store))
  let db2 := all_locations.foldl (fun d n => (get_or_insert_location d n).2) db1
  let all_drivers := pdUnique (df0.map (fun r => r.driver_identifier) ++
                               df2.map (fun r => r.driver_identifier))
  let db3 := all_drivers.foldl (fun d n => (get_or_insert_driver d n).2) db2
  let unique_shipments := drop_duplicates_by_shipment df2
  let res := shipmentsLoop populateConnForeignKeys exn2 db3 [] unique_shipments
  lineItemsLoop populateConnForeignKeys exn1 res.1 res.2 df1

/-- The `__main__` block up to the end of `populate_database`: if a database
file already exists it is removed (`os.remove`), then `setup_database`
creates the schema and `populate_database` loads the three tables.  `prior`
is the content of a pre-existing database file, if any. -/
def main_run (prior : Option DB) (df0 : List Row0) (df1 : List Row1)
    (df2 : List Row2) : DB × List LogEntry :=
  let onDisk : Option DB := if prior.isSome then none else prior
  let db0 := setup_database onDisk
  populate_database noExn2 noExn1 db0 df0 df1 df2

/-- The human-readable shipments view of the verification step: `Shipments`
joined with `Locations` (twice) and `Drivers`, producing the shipment
identifier with the resolved origin, destination and driver names. -/
def shipmentsJoinedView (db : DB) : List (Int × String × String × String) :=
  db.shipments.flatMap (fun s =>
    (db.locations.filter (fun ol => ol.lid == s.origin)).flatMap (fun ol =>
      (db.locations.filter (fun dl => dl.lid == s.dest)).flatMap (fun dl =>
        (db.drivers.filter (fun d => d.did == s.driver)).map (fun d =>
          (s.sid, ol.name, dl.name, d.ident)))))

/-- The line-items view of the verification step: `ShipmentLineItems` joined
with `Products`, `LIMIT 10`. -/
def lineItemsJoinedView (db : DB) : List (Int × String × Nat × String) :=
  (db.lineItems.flatMap (fun li =>
    (db.products.filter (fun p => p.pid == li.prodId)).map (fun p =>
      (li.sid, p.name, li.qty, li.onTime)))).take 10

/-- What the verification step prints: the three entity tables in full, the
joined shipments view and the bounded line-items view. -/
structure VerificationOutput where
  productRows : List ProductRow
  locationRows : List LocationRow
  driverRows : List DriverRow
  shipmentsView : List (Int × String × String × String)
  lineItemsView : List (Int × String × Nat × String)
deriving Repr, DecidableEq

/-- The verification step of the `__main__` block: runs the five `SELECT`
queries against the populated database and returns their results together
with the database state after the queries ran. -/
def run_verification (db : DB) : VerificationOutput × DB :=
  ({ productRows := db.products, locationRows := db.locations,
     driverRows := db.drivers, shipmentsView := shipmentsJoinedView db,
     lineItemsView := lineItemsJoinedView db }, db)

/-! ## Helper lemmas -/

/-- A predicate preserved by every step of a `foldl` holds of its result. -/
theorem foldl_preserve {α β : Type} (P : α → Prop) (f : α → β → α)
    (h : ∀ a b, P a → P (f a b)) :
    ∀ (l : List β) (a : α), P a → P (l.foldl f a) := by
  intro l
  induction l with
  | nil => intro a ha; exact ha
  | cons x xs ih => intro a ha; exact ih _ (h a x ha)

/-- Resolving the same product name twice returns the same identifier and
leaves the state of the first resolution unchanged. -/
theorem get_or_insert_product_idem (db : DB) (n : String) :
    get_or_insert_product (get_or_insert_product db n).2 n =
      get_or_insert_product db n := by
  unfold get_or_insert_product
  cases h : db.products.find? (fun r => r.name == n) with
  | some r => simp [h]
  | none => simp [h, List.find?_append]

/-- Resolving the same location name twice returns the same identifier and
leaves the state of the first resolution unchanged. -/
theorem get_or_insert_location_idem (db : DB) (n : String) :
    get_or_insert_location (get_or_insert_location db n).2 n =
      get_or_insert_location db n := by
  unfold get_or_insert_location
  cases h : db.locations.find? (fun r => r.name == n) with
  | some r => simp [h]
  | none => simp [h, List.find?_append]

/-- Resolving the same driver identifier twice returns the same identifier
and leaves the state of the first resolution unchanged. -/
theorem get_or_insert_driver_idem (db : DB) (n : String) :
    get_or_insert_driver (get_or_insert_driver db n).2 n =
      get_or_insert_driver db n := by
  unfold get_or_insert_driver
  cases h : db.drivers.find? (fun r => r.ident == n) with
  | some r => simp [h]
  | none => simp [h, List.find?_append]

/-- `get_or_insert_product` touches only the `Products` table and its
counter. -/
theorem get_or_insert_product_frame (db : DB) (n : String) :
    ((get_or_insert_product db n).2).locations = db.locations ∧
    ((get_or_insert_product db n).2).drivers = db.drivers ∧
    ((get_or_insert_product db n).2).shipments = db.shipments ∧
    ((get_or_insert_product db n).2).lineItems = db.lineItems := by
  unfold get_or_insert_product
  cases h : db.products.find? (fun r => r.name == n) <;> simp [h]

/-- `get_or_insert_location` touches only the `Locations` table and its
counter. -/
theorem get_or_insert_location_frame (db : DB) (n : String) :
    ((get_or_insert_location db n).2).products = db.products ∧
    ((get_or_insert_location db n).2).drivers = db.drivers ∧
    ((get_or_insert_location db n).2).shipments = db.shipments ∧
    ((get_or_insert_location db n).2).lineItems = db.lineItems := by
  unfold get_or_insert_location
  cases h : db.locations.find? (fun r => r.name == n) <;> simp [h]

/-- `get_or_insert_driver` touches only the `Drivers` table and its
counter. -/
theorem get_or_insert_driver_frame (db : DB) (n : String) :
    ((get_or_insert_driver db n).2).products = db.products ∧
    ((get_or_insert_driver db n).2).locations = db.locations ∧
    ((get_or_insert_driver db n).2).shipments = db.shipments ∧
    ((get_or_insert_driver db n).2).lineItems = db.lineItems := by
  unfold get_or_insert_driver
  cases h : db.drivers.find? (fun r => r.ident == n) <;> simp [h]

/-- The name column of `Products` stays duplicate-free across a resolver
call: a row is inserted only when the lookup found no row with that name. -/
theorem get_or_insert_product_nodup (db : DB) (n : String)
    (h : (db.products.map (fun r => r.name)).Nodup) :
    (((get_or_insert_product db n).2).products.map (fun r => r.name)).Nodup := by
  unfold get_or_insert_product
  cases hf : db.products.find? (fun r => r.name == n) with
  | some r => simpa [hf] using h
  | none =>
      have hn : n ∉ db.products.map (fun r => r.name) := by
        intro hmem
        obtain ⟨r, hr, hname⟩ := List.mem_map.mp hmem
        exact (List.find?_eq_none.mp hf r hr) (by simp [hname])
      simp only [hf, List.map_append, List.map_cons, List.map_nil]
      rw [List.nodup_append]
      refine ⟨h, List.nodup_singleton _, ?_⟩
      intro a ha hb
      rw [List.mem_singleton] at hb
      subst hb
      exact hn ha

/-- The name column of `Locations` stays duplicate-free across a resolver
call. -/
theorem get_or_insert_location_nodup (db : DB) (n : String)
    (h : (db.locations.map (fun r => r.name)).Nodup) :
    (((get_or_insert_location db n).2).locations.map (fun r => r.name)).Nodup := by
  unfold get_or_insert_location
  cases hf : db.locations.find? (fun r => r.name == n) with
  | some r => simpa [hf] using h
  | none =>
      have hn : n ∉ db.locations.map (fun r => r.name) := by
        intro hmem
        obtain ⟨r, hr, hname⟩ := List.mem_map.mp hmem
        exact (List.find?_eq_none.mp hf r hr) (by simp [hname])
      simp only [hf, List.map_append, List.map_cons, List.map_nil]
      rw [List.nodup_append]
      refine ⟨h, List.nodup_singleton _, ?_⟩
      intro a ha hb
      rw [List.mem_singleton] at hb
      subst hb
      exact hn ha

/-- The identifier column of `Drivers` stays duplicate-free across a
resolver call. -/
theorem get_or_insert_driver_nodup (db : DB) (n : String)
    (h : (db.drivers.map (fun r => r.ident)).Nodup) :
    (((get_or_insert_driver db n).2).drivers.map (fun r => r.ident)).Nodup := by
  unfold get_or_insert_driver
  cases hf : db.drivers.find? (fun r => r.ident == n) with
  | some r => simpa [hf] using h
  | none =>
      have hn : n ∉ db.drivers.map (fun r => r.ident) := by
        intro hmem
        obtain ⟨r, hr, hname⟩ := List.mem_map.mp hmem
        exact (List.find?_eq_none.mp hf r hr) (by simp [hname])
      simp only [hf, List.map_append, List.map_cons, List.map_nil]
      rw [List.nodup_append]
      refine ⟨h, List.nodup_singleton _, ?_⟩
      intro a ha hb
      rw [List.mem_singleton] at hb
      subst hb
      exact hn ha

/-- The uniqueness invariant of the three entity tables: no duplicate
`ProductName`, `LocationName` or `DriverIdentifier` values. -/
def EntityNamesNodup (db : DB) : Prop :=
  (db.products.map (fun r => r.name)).Nodup ∧
  (db.locations.map (fun r => r.name)).Nodup ∧
  (db.drivers.map (fun r => r.ident)).Nodup

/-- Each resolver preserves the full uniqueness invariant. -/
theorem get_or_insert_product_inv (db : DB) (n : String)
    (h : EntityNamesNodup db) :
    EntityNamesNodup ((get_or_insert_product db n).2) := by
  obtain ⟨h1, h2, h3⟩ := h
  obtain ⟨f1, f2, -, -⟩ := get_or_insert_product_frame db n
  exact ⟨get_or_insert_product_nodup db n h1, f1 ▸ h2, f2 ▸ h3⟩

/-- Each resolver preserves the full uniqueness invariant. -/
theorem get_or_insert_location_inv (db : DB) (n : String)
    (h : EntityNamesNodup db) :
    EntityNamesNodup ((get_or_insert_location db n).2) := by
  obtain ⟨h1, h2, h3⟩ := h
  obtain ⟨f1, f2, -, -⟩ := get_or_insert_location_frame db n
  exact ⟨f1 ▸ h1, get_or_insert_location_nodup db n h2, f2 ▸ h3⟩

/-- Each resolver preserves the full uniqueness invariant. -/
theorem get_or_insert_driver_inv (db : DB) (n : String)
    (h : EntityNamesNodup db) :
    EntityNamesNodup ((get_or_insert_driver db n).2) := by
  obtain ⟨h1, h2, h3⟩ := h
  obtain ⟨f1, f2, -, -⟩ := get_or_insert_driver_frame db n
  exact ⟨f1 ▸ h1, f2 ▸ h2, get_or_insert_driver_nodup db n h3⟩

/-- A successful `INSERT OR IGNORE INTO Shipments` leaves the three entity
tables (and the line items) unchanged. -/
theorem insertShipmentOrIgnore_frame (fk : Bool) (db : DB) (sid : Int)
    (o d dr : Nat) (db2 : DB)
    (h : insertShipmentOrIgnore fk db sid o d dr = Except.ok db2) :
    db2.products = db.products ∧ db2.locations = db.locations ∧
    db2.drivers = db.drivers ∧ db2.lineItems = db.lineItems := by
  unfold insertShipmentOrIgnore at h
  split at h
  · simp only [Except.ok.injEq] at h
    subst h
    exact ⟨rfl, rfl, rfl, rfl⟩
  · split at h
    · simp at h
    · simp only [Except.ok.injEq] at h
      subst h
      exact ⟨rfl, rfl, rfl, rfl⟩

/-- A successful `INSERT INTO ShipmentLineItems` leaves the three entity
tables (and the shipments) unchanged. -/
theorem insertLineItem_frame (fk : Bool) (db : DB) (sid : Int)
    (pid qty : Nat) (onTime : String) (db2 : DB)
    (h : insertLineItem fk db sid pid qty onTime = Except.ok db2) :
    db2.products = db.products ∧ db2.locations = db.locations ∧
    db2.drivers = db.drivers ∧ db2.shipments = db.shipments := by
  unfold insertLineItem at h
  split at h
  · simp at h
  · simp only [Except.ok.injEq] at h
    subst h
    exact ⟨rfl, rfl, rfl, rfl⟩

/-- A successfully processed table C row preserves the uniqueness
invariant. -/
theorem processShipmentRow_inv (fk : Bool) (exn : Row2 → Option String)
    (db : DB) (r : Row2) (db2 : DB)
    (h : processShipmentRow fk exn db r = Except.ok db2)
    (hdb : EntityNamesNodup db) : EntityNamesNodup db2 := by
  unfold processShipmentRow at h
  cases hx : exn r with
  | some e => simp [hx] at h
  | none =>
      simp only [hx] at h
      set db3 := (get_or_insert_driver
        ((get_or_insert_location
          ((get_or_insert_location db r.origin_warehouse).2)
          r.destination_store).2) r.driver_identifier).2 with hdb3
      have h3 : EntityNamesNodup db3 :=
        get_or_insert_driver_inv _ _
          (get_or_insert_location_inv _ _
            (get_or_insert_location_inv _ _ hdb))
      cases hi : insertShipmentOrIgnore fk db3 r.shipment_identifier
          (get_or_insert_location db r.origin_warehouse).1
          (get_or_insert_location
            ((get_or_insert_location db r.origin_warehouse).2)
            r.destination_store).1
          (get_or_insert_driver
            ((get_or_insert_location
              ((get_or_insert_location db r.origin_warehouse).2)
              r.destination_store).2) r.driver_identifier).1 with
      | ok db4 =>
          rw [hdb3] at hi
          simp [hi] at h
          obtain ⟨f1, f2, f3, -⟩ :=
            insertShipmentOrIgnore_frame _ _ _ _ _ _ _ hi
          obtain ⟨g1, g2, g3⟩ := h3
          exact h ▸ ⟨f1 ▸ g1, f2 ▸ g2, f3 ▸ g3⟩
      | error e =>
          rw [hdb3] at hi
          simp [hi] at h

/-- A successfully processed table B row preserves the uniqueness
invariant. -/
theorem processLineItemRow_inv (fk : Bool) (exn : Row1 → Option String)
    (db : DB) (r : Row1) (db2 : DB)
    (h : processLineItemRow fk exn db r = Except.ok db2)
    (hdb : EntityNamesNodup db) : EntityNamesNodup db2 := by
  unfold processLineItemRow at h
  cases hx : exn r with
  | some e => simp [hx] at h
  | none =>
      simp only [hx] at h
      have h3 : EntityNamesNodup ((get_or_insert_product db r.product).2) :=
        get_or_insert_product_inv _ _ hdb
      cases hi : insertLineItem fk ((get_or_insert_product db r.product).2)
          r.shipment_identifier (get_or_insert_product db r.product).1 1
          r.on_time with
      | ok db4 =>
          simp [hi] at h
          obtain ⟨f1, f2, f3, -⟩ := insertLineItem_frame _ _ _ _ _ _ _ hi
          obtain ⟨g1, g2, g3⟩ := h3
          exact h ▸ ⟨f1 ▸ g1, f2 ▸ g2, f3 ▸ g3⟩
      | error e => simp [hi] at h

/-- The shipments loop preserves the uniqueness invariant: a successful row
preserves it and a failing row leaves the committed state untouched. -/
theorem shipmentsLoop_inv (fk : Bool) (exn : Row2 → Option String)
    (rows : List Row2) (db : DB) (log : List LogEntry)
    (hdb : EntityNamesNodup db) :
    EntityNamesNodup (shipmentsLoop fk exn db log rows).1 := by
  refine foldl_preserve (fun acc => EntityNamesNodup acc.1)
    (shipmentStep fk exn) ?_ rows (db, log) hdb
  intro acc r hacc
  unfold shipmentStep
  cases h : processShipmentRow fk exn acc.1 r with
  | ok db2 => exact processShipmentRow_inv _ _ _ _ _ h hacc
  | error e => exact hacc

/-- The line-items loop preserves the uniqueness invariant. -/
theorem lineItemsLoop_inv (fk : Bool) (exn : Row1 → Option String)
    (rows : List Row1) (db : DB) (log : List LogEntry)
    (hdb : EntityNamesNodup db) :
    EntityNamesNodup (lineItemsLoop fk exn db log rows).1 := by
  refine foldl_preserve (fun acc => EntityNamesNodup acc.1)
    (lineItemStep fk exn) ?_ rows (db, log) hdb
  intro acc r hacc
  unfold lineItemStep
  cases h : processLineItemRow fk exn acc.1 r with
  | ok db2 => exact processLineItemRow_inv _ _ _ _ _ h hacc
  | error e => exact hacc

/-- The entity-table population phase of `populate_database` (steps 2-4 of
the loader): resolve the deduplicated product names, location names and
driver identifiers in that order. -/
def entityPhase (db : DB) (df0 : List Row0) (df1 : List Row1)
    (df2 : List Row2) : DB :=
  let all_products := pdUnique (df0.map (fun r => r.product) ++
                                df1.map (fun r => r.product))
  let db1 := all_products.foldl (fun d n => (get_or_insert_product d n).2) db
  let all_locations := pdUnique (df0.map (fun r => r.origin_warehouse) ++
                                 df0.map (fun r => r.destination_store) ++
                                 df2.map (fun r => r.origin_warehouse) ++
                                 df2.map (fun r => r.destination_store))
  let db2 := all_locations.foldl (fun d n => (get_or_insert_location d n).2) db1
  let all_drivers := pdUnique (df0.map (fun r => r.driver_identifier) ++
                               df2.map (fun r => r.driver_identifier))
  all_drivers.foldl (fun d n => (get_or_insert_driver d n).2) db2

/-- `populate_database` is the entity phase followed by the shipments loop
and then the line-items loop. -/
theorem populate_database_decomp (exn2 : Row2 → Option String)
    (exn1 : Row1 → Option String) (db : DB) (df0 : List Row0)
    (df1 : List Row1) (df2 : List Row2) :
    populate_database exn2 exn1 db df0 df1 df2 =
      lineItemsLoop populateConnForeignKeys exn1
        (shipmentsLoop populateConnForeignKeys exn2
          (entityPhase db df0 df1 df2) [] (drop_duplicates_by_shipment df2)).1
        (shipmentsLoop populateConnForeignKeys exn2
          (entityPhase db df0 df1 df2) [] (drop_duplicates_by_shipment df2)).2
        df1 := rfl

/-- Resolver calls leave the `ShipmentLineItems` table and its autoincrement
counter unchanged. -/
theorem get_or_insert_product_lineItemsState (db : DB) (n : String) :
    ((get_or_insert_product db n).2).lineItems = db.lineItems ∧
    ((get_or_insert_product db n).2).nextLineItemId = db.nextLineItemId := by
  unfold get_or_insert_product
  cases h : db.products.find? (fun r => r.name == n) <;> simp [h]

/-- Resolver calls leave the `ShipmentLineItems` table and its autoincrement
counter unchanged. -/
theorem get_or_insert_location_lineItemsState (db : DB) (n : String) :
    ((get_or_insert_location db n).2).lineItems = db.lineItems ∧
    ((get_or_insert_location db n).2).nextLineItemId = db.nextLineItemId := by
  unfold get_or_insert_location
  cases h : db.locations.find? (fun r => r.name == n) <;> simp [h]

/-- Resolver calls leave the `ShipmentLineItems` table and its autoincrement
counter unchanged. -/
theorem get_or_insert_driver_lineItemsState (db : DB) (n : String) :
    ((get_or_insert_driver db n).2).lineItems = db.lineItems ∧
    ((get_or_insert_driver db n).2).nextLineItemId = db.nextLineItemId := by
  unfold get_or_insert_driver
  cases h : db.drivers.find? (fun r => r.ident == n) <;> simp [h]

/-- A successful shipments insert leaves the `ShipmentLineItems` table and
its autoincrement counter unchanged. -/
theorem insertShipmentOrIgnore_lineItemsState (fk : Bool) (db : DB)
    (sid : Int) (o d dr : Nat) (db2 : DB)
    (h : insertShipmentOrIgnore fk db sid o d dr = Except.ok db2) :
    db2.lineItems = db.lineItems ∧ db2.nextLineItemId = db.nextLineItemId := by
  unfold insertShipmentOrIgnore at h
  split at h
  · simp only [Except.ok.injEq] at h
    subst h
    exact ⟨rfl, rfl⟩
  · split at h
    · simp at h
    · simp only [Except.ok.injEq] at h
      subst h
      exact ⟨rfl, rfl⟩

/-- The exact effect of a successful `INSERT INTO ShipmentLineItems`: one
row with the current autoincrement value is appended and the counter
advances. -/
theorem insertLineItem_ok_shape (fk : Bool) (db : DB) (sid : Int)
    (pid qty : Nat) (onTime : String) (db2 : DB)
    (h : insertLineItem fk db sid pid qty onTime = Except.ok db2) :
    db2.lineItems = db.lineItems ++
      [{ liid := db.nextLineItemId, sid := sid, prodId := pid, qty := qty,
         onTime := onTime }] ∧
    db2.nextLineItemId = db.nextLineItemId + 1 := by
  unfold insertLineItem at h
  split at h
  · simp at h
  · simp only [Except.ok.injEq] at h
    subst h
    exact ⟨rfl, rfl⟩

/-- The exact effect of a successfully processed table B row on the
`ShipmentLineItems` table: one row is appended carrying the row's shipment
identifier, the resolved product, quantity 1 and the verbatim on-time
status. -/
theorem processLineItemRow_ok_shape (fk : Bool) (exn : Row1 → Option String)
    (db : DB) (r : Row1) (db2 : DB)
    (h : processLineItemRow fk exn db r = Except.ok db2) :
    db2.lineItems = db.lineItems ++
      [{ liid := db.nextLineItemId, sid := r.shipment_identifier,
         prodId := (get_or_insert_product db r.product).1, qty := 1,
         onTime := r.on_time }] ∧
    db2.nextLineItemId = db.nextLineItemId + 1 := by
  unfold processLineItemRow at h
  cases hx : exn r with
  | some e => simp [hx] at h
  | none =>
      simp only [hx] at h
      obtain ⟨s1, s2⟩ := get_or_insert_product_lineItemsState db r.product
      cases hi : insertLineItem fk ((get_or_insert_product db r.product).2)
          r.shipment_identifier (get_or_insert_product db r.product).1 1
          r.on_time with
      | ok db4 =>
          simp only [hi] at h
          simp only [Except.ok.injEq] at h
          obtain ⟨e1, e2⟩ := insertLineItem_ok_shape _ _ _ _ _ _ _ hi
          subst h
          rw [e1, e2, s1, s2]
          exact ⟨rfl, rfl⟩
      | error e => simp [hi] at h

/-- With no Python-level exception on the row, a table B row always inserts
successfully on the foreign-keys-off connection. -/
theorem processLineItemRow_fk_off_ok (exn : Row1 → Option String) (db : DB)
    (r : Row1) (hx : exn r = none) :
    ∃ db2, processLineItemRow false exn db r = Except.ok db2 := by
  have hi : insertLineItem false ((get_or_insert_product db r.product).2)
      r.shipment_identifier (get_or_insert_product db r.product).1 1
      r.on_time =
      Except.ok { ((get_or_insert_product db r.product).2) with
        lineItems := ((get_or_insert_product db r.product).2).lineItems ++
          [{ liid := ((get_or_insert_product db r.product).2).nextLineItemId,
             sid := r.shipment_identifier,
             prodId := (get_or_insert_product db r.product).1, qty := 1,
             onTime := r.on_time }],
        nextLineItemId :=
          ((get_or_insert_product db r.product).2).nextLineItemId + 1 } := by
    unfold insertLineItem
    rw [if_neg (by simp)]
  refine ⟨{ ((get_or_insert_product db r.product).2) with
        lineItems := ((get_or_insert_product db r.product).2).lineItems ++
          [{ liid := ((get_or_insert_product db r.product).2).nextLineItemId,
             sid := r.shipment_identifier,
             prodId := (get_or_insert_product db r.product).1, qty := 1,
             onTime := r.on_time }],
        nextLineItemId :=
          ((get_or_insert_product db r.product).2).nextLineItemId + 1 }, ?_⟩
  unfold processLineItemRow
  rw [hx]
  simp only [hi]

/-- A table B row whose processing raises a Python-level exception makes the
row processor fail with exactly that exception. -/
theorem processLineItemRow_exn (fk : Bool) (exn : Row1 → Option String)
    (db : DB) (r : Row1) (e : String) (hx : exn r = some e) :
    processLineItemRow fk exn db r = Except.error e := by
  unfold processLineItemRow
  rw [hx]

/-- The number of line items after the loop: one per input row that was
processed without error (no deduplication). -/
theorem lineItemsLoop_count (exn : Row1 → Option String) :
    ∀ (rows : List Row1) (db : DB) (log : List LogEntry),
      ((lineItemsLoop false exn db log rows).1.lineItems).length =
        db.lineItems.length +
          (rows.filter (fun r => (exn r).isNone)).length := by
  intro rows
  induction rows with
  | nil => intro db log; simp [lineItemsLoop]
  | cons r rs ih =>
      intro db log
      cases hx : exn r with
      | some e =>
          have hstep : lineItemStep false exn (db, log) r =
              (db, log ++ [{ source := s1Path,
                             shipmentId := r.shipment_identifier,
                             message := e }]) := by
            simp [lineItemStep, processLineItemRow_exn false exn db r e hx]
          unfold lineItemsLoop
          rw [List.foldl_cons, hstep]
          have := ih db (log ++ [{ source := s1Path,
                                   shipmentId := r.shipment_identifier,
                                   message := e }])
          unfold lineItemsLoop at this
          rw [this]
          simp [List.filter_cons, hx]
      | none =>
          obtain ⟨db2, h⟩ := processLineItemRow_fk_off_ok exn db r hx
          have hstep : lineItemStep false exn (db, log) r = (db2, log) := by
            simp [lineItemStep, h]
          obtain ⟨e1, -⟩ := processLineItemRow_ok_shape false exn db r db2 h
          unfold lineItemsLoop
          rw [List.foldl_cons, hstep]
          have := ih db2 log
          unfold lineItemsLoop at this
          rw [this, e1]
          simp [List.filter_cons, hx]
          omega

/-- `populateConnForeignKeys` unfolded, for rewriting. -/
theorem populateConnForeignKeys_eq : populateConnForeignKeys = false := rfl

/-- The entity phase leaves the `ShipmentLineItems` table and its counter
unchanged. -/
theorem entityPhase_lineItemsState (db : DB) (df0 : List Row0)
    (df1 : List Row1) (df2 : List Row2) :
    (entityPhase db df0 df1 df2).lineItems = db.lineItems ∧
    (entityPhase db df0 df1 df2).nextLineItemId = db.nextLineItemId := by
  have hp : ∀ (a : DB) (b : String),
      (a.lineItems = db.lineItems ∧ a.nextLineItemId = db.nextLineItemId) →
      (((get_or_insert_product a b).2).lineItems = db.lineItems ∧
       ((get_or_insert_product a b).2).nextLineItemId = db.nextLineItemId) :=
    fun a b h => ⟨(get_or_insert_product_lineItemsState a b).1.trans h.1,
                  (get_or_insert_product_lineItemsState a b).2.trans h.2⟩
  have hl : ∀ (a : DB) (b : String),
      (a.lineItems = db.lineItems ∧ a.nextLineItemId = db.nextLineItemId) →
      (((get_or_insert_location a b).2).lineItems = db.lineItems ∧
       ((get_or_insert_location a b).2).nextLineItemId = db.nextLineItemId) :=
    fun a b h => ⟨(get_or_insert_location_lineItemsState a b).1.trans h.1,
                  (get_or_insert_location_lineItemsState a b).2.trans h.2⟩
  have hd : ∀ (a : DB) (b : String),
      (a.lineItems = db.lineItems ∧ a.nextLineItemId = db.nextLineItemId) →
      (((get_or_insert_driver a b).2).lineItems = db.lineItems ∧
       ((get_or_insert_driver a b).2).nextLineItemId = db.nextLineItemId) :=
    fun a b h => ⟨(get_or_insert_driver_lineItemsState a b).1.trans h.1,
                  (get_or_insert_driver_lineItemsState a b).2.trans h.2⟩
  exact foldl_preserve
    (fun d : DB => d.lineItems = db.lineItems ∧ d.nextLineItemId = db.nextLineItemId)
    _ hd _ _
    (foldl_preserve
      (fun d : DB => d.lineItems = db.lineItems ∧ d.nextLineItemId = db.nextLineItemId)
      _ hl _ _
      (foldl_preserve
        (fun d : DB => d.lineItems = db.lineItems ∧ d.nextLineItemId = db.nextLineItemId)
        _ hp _ _ ⟨rfl, rfl⟩))

/-- A successfully processed table C row leaves the `ShipmentLineItems`
table and its counter unchanged. -/
theorem processShipmentRow_lineItemsState (fk : Bool)
    (exn : Row2 → Option String) (db : DB) (r : Row2) (db2 : DB)
    (h : processShipmentRow fk exn db r = Except.ok db2) :
    db2.lineItems = db.lineItems ∧ db2.nextLineItemId = db.nextLineItemId := by
  unfold processShipmentRow at h
  cases hx : exn r with
  | some e => simp [hx] at h
  | none =>
      simp only [hx] at h
      set db3 := (get_or_insert_driver
        ((get_or_insert_location
          ((get_or_insert_location db r.origin_warehouse).2)
          r.destination_store).2) r.driver_identifier).2 with hdb3
      have h3 : db3.lineItems = db.lineItems ∧
          db3.nextLineItemId = db.nextLineItemId := by
        rw [hdb3]
        refine ⟨((get_or_insert_driver_lineItemsState _ _).1).trans ?_,
                ((get_or_insert_driver_lineItemsState _ _).2).trans ?_⟩
        · exact ((get_or_insert_location_lineItemsState _ _).1).trans
            ((get_or_insert_location_lineItemsState _ _).1)
        · exact ((get_or_insert_location_lineItemsState _ _).2).trans
            ((get_or_insert_location_lineItemsState _ _).2)
      cases hi : insertShipmentOrIgnore fk db3 r.shipment_identifier
          (get_or_insert_location db r.origin_warehouse).1
          (get_or_insert_location
            ((get_or_insert_location db r.origin_warehouse).2)
            r.destination_store).1
          (get_or_insert_driver
            ((get_or_insert_location
              ((get_or_insert_location db r.origin_warehouse).2)
              r.destination_store).2) r.driver_identifier).1 with
      | ok db4 =>
          rw [hdb3] at hi
          simp [hi] at h
          obtain ⟨a1, a2⟩ :=
            insertShipmentOrIgnore_lineItemsState _ _ _ _ _ _ _ hi
          rw [← hdb3] at a1 a2
          exact h ▸ ⟨a1.trans h3.1, a2.trans h3.2⟩
      | error e =>
          rw [hdb3] at hi
          simp [hi] at h

/-- The shipments loop leaves the `ShipmentLineItems` table and its counter
unchanged. -/
theorem shipmentsLoop_lineItemsState (fk : Bool) (exn : Row2 → Option String)
    (db : DB) (log : List LogEntry) (rows : List Row2) :
    (shipmentsLoop fk exn db log rows).1.lineItems = db.lineItems ∧
    (shipmentsLoop fk exn db log rows).1.nextLineItemId = db.nextLineItemId := by
  refine foldl_preserve
    (fun acc => acc.1.lineItems = db.lineItems ∧
                acc.1.nextLineItemId = db.nextLineItemId)
    (shipmentStep fk exn) ?_ rows (db, log) ⟨rfl, rfl⟩
  intro acc r hacc
  unfold shipmentStep
  cases h : processShipmentRow fk exn acc.1 r with
  | ok db2 =>
      obtain ⟨a1, a2⟩ := processShipmentRow_lineItemsState fk exn acc.1 r db2 h
      exact ⟨a1.trans hacc.1, a2.trans hacc.2⟩
  | error e => exact hacc

/-- Every stored line item carries quantity 1. -/
def QtyAllOne (db : DB) : Prop := ∀ li ∈ db.lineItems, li.qty = 1

/-- Line-item surrogate keys are pairwise distinct and below the
autoincrement counter. -/
def LineItemIdsFresh (db : DB) : Prop :=
  (db.lineItems.map (fun li => li.liid)).Nodup ∧
  ∀ li ∈ db.lineItems, li.liid < db.nextLineItemId

/-- One iteration of the line-items loop preserves the quantity-1
property. -/
theorem lineItemStep_qty (fk : Bool) (exn : Row1 → Option String)
    (acc : DB × List LogEntry) (r : Row1) (h : QtyAllOne acc.1) :
    QtyAllOne (lineItemStep fk exn acc r).1 := by
  unfold lineItemStep
  cases hp : processLineItemRow fk exn acc.1 r with
  | ok db2 =>
      obtain ⟨e1, -⟩ := processLineItemRow_ok_shape fk exn acc.1 r db2 hp
      intro li hli
      rw [e1, List.mem_append] at hli
      rcases hli with hold | hnew
      · exact h li hold
      · rw [List.mem_singleton] at hnew
        subst hnew
        rfl
  | error e => exact h

/-- One iteration of the line-items loop preserves freshness of the
surrogate keys. -/
theorem lineItemStep_fresh (fk : Bool) (exn : Row1 → Option String)
    (acc : DB × List LogEntry) (r : Row1) (h : LineItemIdsFresh acc.1) :
    LineItemIdsFresh (lineItemStep fk exn acc r).1 := by
  unfold lineItemStep
  cases hp : processLineItemRow fk exn acc.1 r with
  | ok db2 =>
      obtain ⟨e1, e2⟩ := processLineItemRow_ok_shape fk exn acc.1 r db2 hp
      obtain ⟨hnd, hlt⟩ := h
      constructor
      · rw [e1, List.map_append, List.map_cons, List.map_nil,
          List.nodup_append]
        refine ⟨hnd, List.nodup_singleton _, ?_⟩
        intro a ha hb
        rw [List.mem_singleton] at hb
        subst hb
        obtain ⟨li, hli, he⟩ := List.mem_map.mp ha
        exact absurd (he ▸ hlt li hli) (lt_irrefl _)
      · intro li hli
        rw [e1, List.mem_append] at hli
        rw [e2]
        rcases hli with hold | hnew
        · exact Nat.lt_succ_of_lt (hlt li hold)
        · rw [List.mem_singleton] at hnew
          subst hnew
          exact Nat.lt_succ_self _
  | error e => exact h

/-- The line-items loop preserves the quantity-1 property. -/
theorem lineItemsLoop_qty (fk : Bool) (exn : Row1 → Option String)
    (db : DB) (log : List LogEntry) (rows : List Row1)
    (h : QtyAllOne db) : QtyAllOne (lineItemsLoop fk exn db log rows).1 :=
  foldl_preserve (fun acc => QtyAllOne acc.1) (lineItemStep fk exn)
    (fun a b ha => lineItemStep_qty fk exn a b ha) rows (db, log) h

/-- The line-items loop preserves freshness of the surrogate keys. -/
theorem lineItemsLoop_fresh (fk : Bool) (exn : Row1 → Option String)
    (db : DB) (log : List LogEntry) (rows : List Row1)
    (h : LineItemIdsFresh db) :
    LineItemIdsFresh (lineItemsLoop fk exn db log rows).1 :=
  foldl_preserve (fun acc => LineItemIdsFresh acc.1) (lineItemStep fk exn)
    (fun a b ha => lineItemStep_fresh fk exn a b ha) rows (db, log) h

/-! ## Claim theorems -/

/-- C1: for every name string `n` and every database state, calling the
entity resolver (`get_or_insert_product` / `get_or_insert_location` /
`get_or_insert_driver`) twice with `n` returns the same identifier both
times, and the second call inserts no new row: the second call's result
(identifier and state) equals the first call's result. -/
theorem resolver_lookup_or_insert_idempotent :
    ∀ (db : DB) (n : String),
      get_or_insert_product (get_or_insert_product db n).2 n =
        get_or_insert_product db n ∧
      get_or_insert_location (get_or_insert_location db n).2 n =
        get_or_insert_location db n ∧
      get_or_insert_driver (get_or_insert_driver db n).2 n =
        get_or_insert_driver db n :=
  fun db n =>
    ⟨get_or_insert_product_idem db n, get_or_insert_location_idem db n,
     get_or_insert_driver_idem db n⟩

/-- C2: the `ProductName`, `LocationName` and `DriverIdentifier` columns
contain no duplicate values after a full `populate_database` run on a
freshly set-up database, and this uniqueness is preserved by every resolver
call and by every successful `Shipments` / `ShipmentLineItems` insertion. -/
theorem entity_name_columns_unique :
    (∀ db n, EntityNamesNodup db →
      EntityNamesNodup ((get_or_insert_product db n).2)) ∧
    (∀ db n, EntityNamesNodup db →
      EntityNamesNodup ((get_or_insert_location db n).2)) ∧
    (∀ db n, EntityNamesNodup db →
      EntityNamesNodup ((get_or_insert_driver db n).2)) ∧
    (∀ fk db sid o d dr db2,
      insertShipmentOrIgnore fk db sid o d dr = Except.ok db2 →
      EntityNamesNodup db → EntityNamesNodup db2) ∧
    (∀ fk db sid pid qty onTime db2,
      insertLineItem fk db sid pid qty onTime = Except.ok db2 →
      EntityNamesNodup db → EntityNamesNodup db2) ∧
    (∀ exn2 exn1 df0 df1 df2,
      EntityNamesNodup
        (populate_database exn2 exn1 (setup_database none) df0 df1 df2).1) := by
  refine ⟨get_or_insert_product_inv, get_or_insert_location_inv,
    get_or_insert_driver_inv, ?_, ?_, ?_⟩
  · intro fk db sid o d dr db2 h hdb
    obtain ⟨f1, f2, f3, -⟩ := insertShipmentOrIgnore_frame fk db sid o d dr db2 h
    obtain ⟨g1, g2, g3⟩ := hdb
    exact ⟨f1 ▸ g1, f2 ▸ g2, f3 ▸ g3⟩
  · intro fk db sid pid qty onTime db2 h hdb
    obtain ⟨f1, f2, f3, -⟩ := insertLineItem_frame fk db sid pid qty onTime db2 h
    obtain ⟨g1, g2, g3⟩ := hdb
    exact ⟨f1 ▸ g1, f2 ▸ g2, f3 ▸ g3⟩
  · intro exn2 exn1 df0 df1 df2
    unfold populate_database
    apply lineItemsLoop_inv
    apply shipmentsLoop_inv
    have base : EntityNamesNodup (setup_database none) := by
      simp [setup_database, emptyDB, EntityNamesNodup]
    exact foldl_preserve EntityNamesNodup _
      (fun a b ha => get_or_insert_driver_inv a b ha) _ _
      (foldl_preserve EntityNamesNodup _
        (fun a b ha => get_or_insert_location_inv a b ha) _ _
        (foldl_preserve EntityNamesNodup _
          (fun a b ha => get_or_insert_product_inv a b ha) _ _ base))

/-- Witness for C2: the preservation statements applied at concrete
inputs. -/
theorem entity_name_columns_unique_witness :
    EntityNamesNodup ((get_or_insert_product emptyDB "Widget").2) ∧
    EntityNamesNodup { emptyDB with
      shipments := [{ sid := 100, origin := 1, dest := 1, driver := 1 }] } ∧
    EntityNamesNodup
      (populate_database noExn2 noExn1 (setup_database none)
        [] [{ shipment_identifier := 100, product := "Widget",
              on_time := "Yes" }] []).1 :=
  ⟨entity_name_columns_unique.1 emptyDB "Widget"
      (by simp [EntityNamesNodup, emptyDB]),
   entity_name_columns_unique.2.2.2.1 false emptyDB 100 1 1 1
      { emptyDB with
        shipments := [{ sid := 100, origin := 1, dest := 1, driver := 1 }] }
      (by rfl) (by simp [EntityNamesNodup, emptyDB]),
   entity_name_columns_unique.2.2.2.2.2 noExn2 noExn1 [] _ []⟩

/-- C4: a table C or table B row whose processing raises an exception is
caught by the handler: a log entry with the offending shipment identifier
and the source file is recorded, the database state passed to the rest of
the loop is the state committed before the row (the row's uncommitted
changes are rolled back), and the loop continues with the remaining rows. -/
theorem row_errors_logged_rolled_back_loop_continues :
    (∀ fk exn db log r rs e,
      processShipmentRow fk exn db r = Except.error e →
      shipmentsLoop fk exn db log (r :: rs) =
        shipmentsLoop fk exn db
          (log ++ [{ source := s2Path, shipmentId := r.shipment_identifier,
                     message := e }]) rs) ∧
    (∀ fk exn db log r rs e,
      processLineItemRow fk exn db r = Except.error e →
      lineItemsLoop fk exn db log (r :: rs) =
        lineItemsLoop fk exn db
          (log ++ [{ source := s1Path, shipmentId := r.shipment_identifier,
                     message := e }]) rs) := by
  constructor
  · intro fk exn db log r rs e h
    have hs : shipmentStep fk exn (db, log) r =
        (db, log ++ [{ source := s2Path,
                       shipmentId := r.shipment_identifier, message := e }]) := by
      simp [shipmentStep, h]
    unfold shipmentsLoop
    rw [List.foldl_cons, hs]
  · intro fk exn db log r rs e h
    have hs : lineItemStep fk exn (db, log) r =
        (db, log ++ [{ source := s1Path,
                       shipmentId := r.shipment_identifier, message := e }]) := by
      simp [lineItemStep, h]
    unfold lineItemsLoop
    rw [List.foldl_cons, hs]

/-- Witness for C4: a row that raises is logged and skipped while the state
is carried over unchanged. -/
theorem row_errors_logged_rolled_back_loop_continues_witness :
    shipmentsLoop false (fun _ => some "boom") emptyDB []
        [{ shipment_identifier := 100, origin_warehouse := "WH1",
           destination_store := "ST1", driver_identifier := "D1" }] =
      shipmentsLoop false (fun _ => some "boom") emptyDB
        [{ source := s2Path, shipmentId := 100, message := "boom" }] [] :=
  row_errors_logged_rolled_back_loop_continues.1 false (fun _ => some "boom")
    emptyDB []
    { shipment_identifier := 100, origin_warehouse := "WH1",
      destination_store := "ST1", driver_identifier := "D1" } [] "boom" rfl

/-- C7: the load is deterministic and independent of any pre-existing
database file, because the `__main__` block removes the file before
`setup_database` runs: two runs over the same inputs, starting from any two
prior on-disk states, produce identical table contents, surrogate keys
included. -/
theorem load_deterministic_after_file_removal :
    ∀ (pre1 pre2 : Option DB) df0 df1 df2,
      main_run pre1 df0 df1 df2 = main_run pre2 df0 df1 df2 := by
  intro pre1 pre2 df0 df1 df2
  cases pre1 <;> cases pre2 <;> rfl

/-- C9: the verification step is read-only: running its five queries leaves
the database state exactly as `populate_database` left it. -/
theorem verification_read_only :
    ∀ db : DB, (run_verification db).2 = db :=
  fun _ => rfl

/-- With foreign-key enforcement off, `INSERT OR IGNORE INTO Shipments`
always succeeds: a duplicate primary key is silently ignored and there is
no other constraint to violate. -/
theorem insertShipmentOrIgnore_fk_off_ok (db : DB) (sid : Int)
    (o d dr : Nat) :
    ∃ db2, insertShipmentOrIgnore false db sid o d dr = Except.ok db2 := by
  unfold insertShipmentOrIgnore
  by_cases h1 : (db.shipments.any fun s => s.sid == sid) = true
  · rw [if_pos h1]
    exact ⟨db, rfl⟩
  · rw [if_neg h1, if_neg (by simp)]
    exact ⟨_, rfl⟩

/-- With foreign-key enforcement off and no Python-level exception, a table
C row is always processed successfully. -/
theorem processShipmentRow_fk_off_ok (exn : Row2 → Option String) (db : DB)
    (r : Row2) (hx : exn r = none) :
    ∃ db2, processShipmentRow false exn db r = Except.ok db2 := by
  unfold processShipmentRow
  rw [hx]
  obtain ⟨db2, h⟩ := insertShipmentOrIgnore_fk_off_ok
    ((get_or_insert_driver
      ((get_or_insert_location
        ((get_or_insert_location db r.origin_warehouse).2)
        r.destination_store).2) r.driver_identifier).2)
    r.shipment_identifier
    (get_or_insert_location db r.origin_warehouse).1
    (get_or_insert_location
      ((get_or_insert_location db r.origin_warehouse).2)
      r.destination_store).1
    (get_or_insert_driver
      ((get_or_insert_location
        ((get_or_insert_location db r.origin_warehouse).2)
        r.destination_store).2) r.driver_identifier).1
  refine ⟨db2, ?_⟩
  simp only [h]

/-- With foreign-key enforcement off and no Python-level exception the
shipments loop never appends to the error log. -/
theorem shipmentsLoop_fk_off_no_log (rows : List Row2) :
    ∀ (db : DB) (log : List LogEntry),
      (shipmentsLoop false noExn2 db log rows).2 = log := by
  induction rows with
  | nil => intro db log; rfl
  | cons r rs ih =>
      intro db log
      obtain ⟨db2, h⟩ := processShipmentRow_fk_off_ok noExn2 db r rfl
      have hs : shipmentStep false noExn2 (db, log) r = (db2, log) := by
        simp [shipmentStep, h]
      unfold shipmentsLoop
      rw [List.foldl_cons, hs]
      exact ih db2 log

/-- C10: in the shipments population loop the exception handlers are
unreachable on well-formed input: the connection used by
`populate_database` never has foreign-key enforcement enabled, every row is
processed successfully (the deduplicated `INSERT OR IGNORE` cannot violate
any enforced constraint), and the loop logs no error. -/
theorem shipments_loop_handlers_unreachable :
    populateConnForeignKeys = false ∧
    (∀ (db : DB) (r : Row2), ∃ db2,
      processShipmentRow populateConnForeignKeys noExn2 db r =
        Except.ok db2) ∧
    (∀ (db : DB) (log : List LogEntry) (rows : List Row2),
      (shipmentsLoop populateConnForeignKeys noExn2 db log rows).2 = log) :=
  ⟨rfl, fun db r => processShipmentRow_fk_off_ok noExn2 db r rfl,
   fun db log rows => shipmentsLoop_fk_off_no_log rows db log⟩

/-- C8: with the foreign-key pragma never enabled on the population
connection, inserting a table B line item whose shipment identifier matches
no `Shipments` row succeeds and leaves a dangling `ShipmentID`
reference. -/
theorem line_item_insert_allows_dangling_shipment :
    ∀ (db : DB) (r : Row1),
      (∀ s ∈ db.shipments, s.sid ≠ r.shipment_identifier) →
      ∃ db2,
        processLineItemRow populateConnForeignKeys noExn1 db r =
          Except.ok db2 ∧
        db2.lineItems.length = db.lineItems.length + 1 ∧
        (∃ li ∈ db2.lineItems, li.sid = r.shipment_identifier) ∧
        (∀ s ∈ db2.shipments, s.sid ≠ r.shipment_identifier) := by
  intro db r hdang
  obtain ⟨-, -, fship, fitems⟩ := get_or_insert_product_frame db r.product
  refine ⟨{ (get_or_insert_product db r.product).2 with
            lineItems := ((get_or_insert_product db r.product).2).lineItems ++
              [{ liid := ((get_or_insert_product db r.product).2).nextLineItemId,
                 sid := r.shipment_identifier,
                 prodId := (get_or_insert_product db r.product).1,
                 qty := 1, onTime := r.on_time }],
            nextLineItemId :=
              ((get_or_insert_product db r.product).2).nextLineItemId + 1 },
    rfl, ?_, ?_, ?_⟩
  · simp [fitems]
  · exact ⟨{ liid := ((get_or_insert_product db r.product).2).nextLineItemId,
             sid := r.shipment_identifier,
             prodId := (get_or_insert_product db r.product).1,
             qty := 1, onTime := r.on_time }, by simp, rfl⟩
  · intro s hs
    rw [show ({ (get_or_insert_product db r.product).2 with
            lineItems := ((get_or_insert_product db r.product).2).lineItems ++
              [{ liid := ((get_or_insert_product db r.product).2).nextLineItemId,
                 sid := r.shipment_identifier,
                 prodId := (get_or_insert_product db r.product).1,
                 qty := 1, onTime := r.on_time }],
            nextLineItemId :=
              ((get_or_insert_product db r.product).2).nextLineItemId + 1 } : DB).shipments =
          db.shipments from fship] at hs
    exact hdang s hs

/-- Every row kept by `drop_duplicates` is the first row (in file order) of
the input bearing its shipment identifier, and its identifier was not
already kept. -/
theorem dropDupShipments_first (rows : List Row2) :
    ∀ (seen : List Int) (r : Row2), r ∈ dropDupShipments seen rows →
      r.shipment_identifier ∉ seen ∧
      rows.find? (fun x => x.shipment_identifier == r.shipment_identifier) =
        some r := by
  induction rows with
  | nil => intro seen r h; simp [dropDupShipments] at h
  | cons r0 rs ih =>
      intro seen r h
      unfold dropDupShipments at h
      by_cases h0 : seen.contains r0.shipment_identifier = true
      · rw [if_pos h0] at h
        obtain ⟨hnot, hfind⟩ := ih seen r h
        have hne : ¬(r0.shipment_identifier == r.shipment_identifier) = true := by
          simp only [beq_iff_eq]
          intro he
          exact hnot (he ▸ List.elem_iff.mp h0)
        exact ⟨hnot, by
          rw [@List.find?_cons_of_neg Row2
            (fun x => x.shipment_identifier == r.shipment_identifier) r0 rs hne]
          exact hfind⟩
      · rw [if_neg h0] at h
        rcases List.mem_cons.mp h with heq | hmem
        · subst heq
          refine ⟨fun hs => h0 (List.elem_iff.mpr hs), ?_⟩
          rw [List.find?_cons_of_pos _ (by simp)]
        · obtain ⟨hnot, hfind⟩ := ih (r0.shipment_identifier :: seen) r hmem
          have hne0 : r0.shipment_identifier ≠ r.shipment_identifier :=
            fun he => hnot (List.mem_cons.mpr (Or.inl he.symm))
          refine ⟨fun hs => hnot (List.mem_cons_of_mem _ hs), ?_⟩
          rw [@List.find?_cons_of_neg Row2
            (fun x => x.shipment_identifier == r.shipment_identifier) r0 rs
            (by simp [hne0])]
          exact hfind

/-- Every shipment identifier of the input is covered: it is either in
`seen` or carried by some kept row. -/
theorem dropDupShipments_covers (rows : List Row2) :
    ∀ (seen : List Int) (r : Row2), r ∈ rows →
      r.shipment_identifier ∈ seen ∨
      ∃ r2 ∈ dropDupShipments seen rows,
        r2.shipment_identifier = r.shipment_identifier := by
  induction rows with
  | nil => intro seen r h; simp at h
  | cons r0 rs ih =>
      intro seen r h
      unfold dropDupShipments
      by_cases h0 : seen.contains r0.shipment_identifier = true
      · rw [if_pos h0]
        rcases List.mem_cons.mp h with heq | hmem
        · subst heq
          exact Or.inl (List.elem_iff.mp h0)
        · exact ih seen r hmem
      · rw [if_neg h0]
        rcases List.mem_cons.mp h with heq | hmem
        · subst heq
          exact Or.inr ⟨r, List.mem_cons_self _ _, rfl⟩
        · rcases ih (r0.shipment_identifier :: seen) r hmem with hin | ⟨r2, hr2, he⟩
          · rcases List.mem_cons.mp hin with heq2 | hin2
            · exact Or.inr ⟨r0, List.mem_cons_self _ _, heq2.symm⟩
            · exact Or.inl hin2
          · exact Or.inr ⟨r2, List.mem_cons_of_mem _ hr2, he⟩

/-- C3: only the first table C row (in file order) bearing a given shipment
identifier contributes a `Shipments` row: every row retained by
`drop_duplicates_by_shipment` is the first of its identifier, every
identifier of the input is represented among the retained rows, and
attempting to insert a shipment whose identifier already exists is a silent
no-op (`INSERT OR IGNORE` returns the state unchanged, raising no
error). -/
theorem shipments_first_occurrence_wins :
    (∀ rows r, r ∈ drop_duplicates_by_shipment rows →
      rows.find? (fun x => x.shipment_identifier == r.shipment_identifier) =
        some r) ∧
    (∀ rows r, r ∈ rows →
      ∃ r2 ∈ drop_duplicates_by_shipment rows,
        r2.shipment_identifier = r.shipment_identifier) ∧
    (∀ fk (db : DB) sid o d dr, (∃ s ∈ db.shipments, s.sid = sid) →
      insertShipmentOrIgnore fk db sid o d dr = Except.ok db) := by
  refine ⟨?_, ?_, ?_⟩
  · intro rows r h
    exact (dropDupShipments_first rows [] r h).2
  · intro rows r h
    rcases dropDupShipments_covers rows [] r h with hin | hc
    · simp at hin
    · exact hc
  · intro fk db sid o d dr h
    have hany : (db.shipments.any fun s => s.sid == sid) = true := by
      rw [List.any_eq_true]
      obtain ⟨s, hs, he⟩ := h
      exact ⟨s, hs, by simp [he]⟩
    unfold insertShipmentOrIgnore
    rw [if_pos hany]

/-- Witness for C3: on a table with a duplicated identifier the first row is
kept, the duplicate identifier remains covered, and re-inserting an
existing identifier is a no-op. -/
theorem shipments_first_occurrence_wins_witness :
    ([{ shipment_identifier := 100, origin_warehouse := "WH1",
        destination_store := "ST1", driver_identifier := "D1" },
      { shipment_identifier := 100, origin_warehouse := "WH2",
        destination_store := "ST2", driver_identifier := "D2" }] :
        List Row2).find?
      (fun x => x.shipment_identifier == (100 : Int)) =
      some { shipment_identifier := 100, origin_warehouse := "WH1",
             destination_store := "ST1", driver_identifier := "D1" } ∧
    insertShipmentOrIgnore false
        { emptyDB with
          shipments := [{ sid := 100, origin := 1, dest := 1, driver := 1 }] }
        100 2 2 2 =
      Except.ok
        { emptyDB with
          shipments := [{ sid := 100, origin := 1, dest := 1, driver := 1 }] } :=
  ⟨shipments_first_occurrence_wins.1
      [{ shipment_identifier := 100, origin_warehouse := "WH1",
         destination_store := "ST1", driver_identifier := "D1" },
       { shipment_identifier := 100, origin_warehouse := "WH2",
         destination_store := "ST2", driver_identifier := "D2" }]
      { shipment_identifier := 100, origin_warehouse := "WH1",
        destination_store := "ST1", driver_identifier := "D1" }
      (by decide),
   shipments_first_occurrence_wins.2.2 false
      { emptyDB with
        shipments := [{ sid := 100, origin := 1, dest := 1, driver := 1 }] }
      100 2 2 2
      ⟨{ sid := 100, origin := 1, dest := 1, driver := 1 }, by decide, rfl⟩⟩

/-- C5: every `ShipmentLineItems` row produced by the load has quantity 1:
table B carries no quantity column and the loader hardcodes the default
`quantity = 1` for every inserted line item. -/
theorem line_item_quantity_defaulted_to_one :
    ∀ exn2 exn1 df0 df1 df2 li,
      li ∈ (populate_database exn2 exn1 (setup_database none)
              df0 df1 df2).1.lineItems →
      li.qty = 1 := by
  intro exn2 exn1 df0 df1 df2
  rw [populate_database_decomp]
  have h0 : QtyAllOne (setup_database none) := by
    intro li h
    simp [setup_database, emptyDB] at h
  have h1 : QtyAllOne (entityPhase (setup_database none) df0 df1 df2) := by
    intro li hli
    rw [(entityPhase_lineItemsState (setup_database none) df0 df1 df2).1] at hli
    exact h0 li hli
  have h2 : QtyAllOne (shipmentsLoop populateConnForeignKeys exn2
      (entityPhase (setup_database none) df0 df1 df2) []
      (drop_duplicates_by_shipment df2)).1 := by
    intro li hli
    rw [(shipmentsLoop_lineItemsState populateConnForeignKeys exn2
      (entityPhase (setup_database none) df0 df1 df2) []
      (drop_duplicates_by_shipment df2)).1] at hli
    exact h1 li hli
  exact fun li hli => lineItemsLoop_qty _ _ _ _ _ h2 li hli

/-- Witness for C5: the line item produced by a one-row table B load has
quantity 1. -/
theorem line_item_quantity_defaulted_to_one_witness :
    ({ liid := 1, sid := 100, prodId := 1, qty := 1, onTime := "Yes" } :
      LineItemRow).qty = 1 :=
  line_item_quantity_defaulted_to_one noExn2 noExn1 []
    [{ shipment_identifier := 100, product := "Widget", on_time := "Yes" }] []
    { liid := 1, sid := 100, prodId := 1, qty := 1, onTime := "Yes" }
    (by decide)

/-- C6: the line-items population performs no deduplication: starting from a
fresh database the number of `ShipmentLineItems` rows equals the number of
table B records processed without error (all of them on well-formed input),
and the inserted rows are pairwise distinct because each receives a fresh
surrogate `LineItemID`. -/
theorem line_items_no_dedup :
    (∀ exn2 exn1 df0 df1 df2,
      ((populate_database exn2 exn1 (setup_database none)
          df0 df1 df2).1.lineItems).length =
        (df1.filter (fun r => (exn1 r).isNone)).length) ∧
    (∀ exn2 exn1 df0 df1 df2,
      (((populate_database exn2 exn1 (setup_database none)
          df0 df1 df2).1.lineItems).map (fun li => li.liid)).Nodup) := by
  constructor
  · intro exn2 exn1 df0 df1 df2
    rw [populate_database_decomp, populateConnForeignKeys_eq,
      lineItemsLoop_count,
      (shipmentsLoop_lineItemsState false exn2
        (entityPhase (setup_database none) df0 df1 df2) []
        (drop_duplicates_by_shipment df2)).1,
      (entityPhase_lineItemsState (setup_database none) df0 df1 df2).1]
    simp [setup_database, emptyDB]
  · intro exn2 exn1 df0 df1 df2
    rw [populate_database_decomp]
    have h0 : LineItemIdsFresh (setup_database none) := by
      constructor
      · simp [setup_database, emptyDB]
      · intro li h
        simp [setup_database, emptyDB] at h
    obtain ⟨a1, a2⟩ :=
      entityPhase_lineItemsState (setup_database none) df0 df1 df2
    have h1 : LineItemIdsFresh (entityPhase (setup_database none)
        df0 df1 df2) := by
      constructor
      · rw [a1]
        exact h0.1
      · intro li hli
        rw [a1] at hli
        rw [a2]
        exact h0.2 li hli
    obtain ⟨b1, b2⟩ := shipmentsLoop_lineItemsState populateConnForeignKeys
      exn2 (entityPhase (setup_database none) df0 df1 df2) []
      (drop_duplicates_by_shipment df2)
    have h2 : LineItemIdsFresh (shipmentsLoop populateConnForeignKeys exn2
        (entityPhase (setup_database none) df0 df1 df2) []
        (drop_duplicates_by_shipment df2)).1 := by
      constructor
      · rw [b1]
        exact h1.1
      · intro li hli
        rw [b1] at hli
        rw [b2]
        exact h1.2 li hli
    exact (lineItemsLoop_fresh _ _ _ _ _ h2).1

/-- Witness for C8: a line item whose shipment identifier matches no
shipment is inserted against the empty database. -/
theorem line_item_insert_allows_dangling_shipment_witness :
    ∃ db2,
      processLineItemRow populateConnForeignKeys noExn1 emptyDB
          { shipment_identifier := 100, product := "Widget",
            on_time := "Yes" } =
        Except.ok db2 ∧
      db2.lineItems.length = emptyDB.lineItems.length + 1 ∧
      (∃ li ∈ db2.lineItems, li.sid = (100 : Int)) ∧
      (∀ s ∈ db2.shipments, s.sid ≠ (100 : Int)) :=
  line_item_insert_allows_dangling_shipment emptyDB
    { shipment_identifier := 100, product := "Widget", on_time := "Yes" }
    (by simp [emptyDB])
